import Mathlib

/-!
Shallow embedding of the debrief-QA quality-sampling and scoring engine
(`app/main.py`, `app/spot_check.py`, `app/database.py`, `app/models.py`,
`app/webhook.py`) together with theorems settling the spec claims.

Machine conventions: database integers are `ℕ`/`ℤ`, scores and fractions
are exact rationals `ℚ`, nullable columns are `Option`, fallible
operations return `Except`.  Python `round(x, 1)` is modelled as
round-half-to-even at one decimal on the exact rational value, and
Python `int(x)` on a real as truncation toward zero.
-/

namespace DebriefQA

/-- `CheckStatus` enum from `app/database.py`. -/
inductive CheckStatus where
  | pending
  | pass
  | fail
  | na
deriving DecidableEq, Repr

/-- `TicketStatus` enum from `app/database.py`. -/
inductive TicketStatus where
  | pending
  | in_progress
  | completed
deriving DecidableEq, Repr

/-- `SpotCheckStatus` enum from `app/database.py`. -/
inductive SpotCheckStatus where
  | pending
  | in_progress
  | completed
deriving DecidableEq, Repr

/-- Round-half-to-even to an integer, as Python `round` does on exact values. -/
def roundHalfEven (q : ℚ) : ℤ :=
  let f : ℤ := ⌊q⌋
  let frac : ℚ := q - (f : ℚ)
  if frac < 1 / 2 then f
  else if 1 / 2 < frac then f + 1
  else if f % 2 = 0 then f else f + 1

/-- Python `round(x, 1)` on the exact rational value. -/
def round1 (q : ℚ) : ℚ := (roundHalfEven (10 * q) : ℚ) / 10

/-- Python `int(x)` for a real argument: truncation toward zero. -/
def pyInt (q : ℚ) : ℤ := if 0 ≤ q then ⌊q⌋ else -⌊-q⌋

theorem round1_intCast (n : ℤ) : round1 (n : ℚ) = (n : ℚ) := by
  have h10 : (10 : ℚ) * (n : ℚ) = ((10 * n : ℤ) : ℚ) := by push_cast; ring
  have hfloor : (⌊((10 * n : ℤ) : ℚ)⌋ : ℤ) = 10 * n := Int.floor_intCast _
  unfold round1 roundHalfEven
  rw [h10]
  simp only [hfloor, sub_self]
  norm_num

/-- `round1` is the identity on rationals that are already integer multiples
of `1/10` (the composite score always is one). -/
theorem round1_div_ten (n : ℤ) : round1 ((n : ℚ) / 10) = (n : ℚ) / 10 := by
  have h : (10 : ℚ) * ((n : ℚ) / 10) = (n : ℚ) := by ring
  unfold round1 roundHalfEven
  rw [h]
  simp only [Int.floor_intCast, sub_self]
  norm_num

end DebriefQA

namespace DebriefQA

/-!
## Composite Scoring Function

Embedding of the per-debrief composite score computed inside
`get_debrief_history` (`app/main.py` lines 1276–1291) and of the
invoice-percentage policy of `get_technician_stats`
(`app/main.py` lines 1169–1179).
-/

/-- The checklist fields of a `DebriefSession` row read by the
history composite-score computation. -/
structure DebriefScoreRow where
  photos_reviewed : CheckStatus
  payment_verified : CheckStatus
  estimates_verified : CheckStatus
  membership_verified : CheckStatus
  google_reviews_discussed : CheckStatus
  invoice_summary_score : Option ℤ
deriving DecidableEq, Repr

/-- `1 if status == "pass" else 0` (`app/main.py` 1281–1285). -/
def passBit (s : CheckStatus) : ℚ := if s = .pass then 1 else 0

/-- `debrief.invoice_summary_score or 5`: Python `or` replaces the falsy
values `None` and `0` by `5` (`app/main.py` line 1286). -/
def invoiceScoreOr5 (o : Option ℤ) : ℤ :=
  match o with
  | none => 5
  | some s => if s = 0 then 5 else s

/-- The unrounded composite of `get_debrief_history`
(`app/main.py` lines 1281–1291). -/
def historyComposite (d : DebriefScoreRow) : ℚ :=
  let photos_pass := passBit d.photos_reviewed
  let payment_pass := passBit d.payment_verified
  let estimates_pass := passBit d.estimates_verified
  let membership_pass := passBit d.membership_verified
  let reviews_pass := passBit d.google_reviews_discussed
  let invoice_pct : ℚ := (invoiceScoreOr5 d.invoice_summary_score : ℚ) * 10
  (photos_pass * 100 * 2 + payment_pass * 100 * 2 + estimates_pass * 100 * 2 +
      invoice_pct * 2 + membership_pass * 100 * 1 + reviews_pass * 100 * 1) / 10

/-- `round(composite, 1)` as reported in the history rows. -/
def historyCompositeScore (d : DebriefScoreRow) : ℚ := round1 (historyComposite d)

/-- `invoice_pct = (avg_invoice * 10) if avg_invoice else 50` from
`get_technician_stats` (`app/main.py` line 1170): the average is `None`
when no score was recorded, and Python `if avg_invoice` also treats an
average of exactly `0` as falsy. -/
def techInvoicePct (avg_invoice : Option ℚ) : ℚ :=
  match avg_invoice with
  | none => 50
  | some a => if a = 0 then 50 else a * 10

/-- Spec-side binary item value: `PASS → 100`, anything else `→ 0` (§4.2). -/
def specBinaryValue (s : CheckStatus) : ℚ := if s = .pass then 100 else 0

/-- Spec-side composite formula (§4.2): weighted sum over the six items,
invoice sub-score mapped by `×10`, divided by the total weight 10 and
rounded to one decimal. -/
def specComposite (d : DebriefScoreRow) (s : ℤ) : ℚ :=
  round1 ((specBinaryValue d.photos_reviewed * 2 + specBinaryValue d.payment_verified * 2 +
      specBinaryValue d.estimates_verified * 2 + (s : ℚ) * 10 * 2 +
      specBinaryValue d.membership_verified * 1 +
      specBinaryValue d.google_reviews_discussed * 1) / 10)

theorem passBit_mul_100 (s : CheckStatus) : passBit s * 100 = specBinaryValue s := by
  cases s <;> simp [passBit, specBinaryValue]

/-- All binary items `PASS` and invoice score 10. -/
def allPassRow : DebriefScoreRow :=
  { photos_reviewed := .pass, payment_verified := .pass, estimates_verified := .pass,
    membership_verified := .pass, google_reviews_discussed := .pass,
    invoice_summary_score := some 10 }

/-- All binary items `FAIL`/`NA` and invoice score 1. -/
def allFailRow : DebriefScoreRow :=
  { photos_reviewed := .fail, payment_verified := .na, estimates_verified := .fail,
    membership_verified := .na, google_reviews_discussed := .fail,
    invoice_summary_score := some 1 }

end DebriefQA

namespace DebriefQA

/-- **C6**: for every debrief whose invoice sub-score is a recorded value in
1..10, the history composite score equals the spec formula
`(photos·2 + payment·2 + estimates·2 + invoice·2 + membership·1 + reviews·1)/10`
rounded to one decimal, with binary items valued `100` exactly on `PASS` and
the invoice term the sub-score times 10; in particular all binary items `PASS`
with invoice 10 yields exactly `100.0`, and all binary items `FAIL`/`NA` with
invoice 1 yields exactly `2.0`. -/
theorem composite_score_matches_spec_formula (d : DebriefScoreRow) (s : ℤ)
    (hs : d.invoice_summary_score = some s) (h1 : 1 ≤ s) (h10 : s ≤ 10) :
    historyCompositeScore d = specComposite d s ∧
    historyCompositeScore allPassRow = 100 ∧
    historyCompositeScore allFailRow = 2 := by
  have hs0 : ¬ s = 0 := by omega
  refine ⟨?_, ?_, ?_⟩
  · simp only [historyCompositeScore, historyComposite, specComposite, hs, invoiceScoreOr5,
      if_neg hs0, passBit_mul_100]
  · simp [historyCompositeScore, historyComposite, allPassRow, passBit, invoiceScoreOr5]
    norm_num [round1, roundHalfEven]
  · simp [historyCompositeScore, historyComposite, allFailRow, passBit, invoiceScoreOr5]
    norm_num [round1, roundHalfEven]

theorem composite_score_matches_spec_formula_witness :
    allPassRow.invoice_summary_score = some 10 ∧
    (historyCompositeScore allPassRow = specComposite allPassRow 10 ∧
      historyCompositeScore allPassRow = 100 ∧
      historyCompositeScore allFailRow = 2) :=
  ⟨rfl, composite_score_matches_spec_formula allPassRow 10 rfl (by decide) (by decide)⟩

/-- **C7**: a debrief with an absent invoice sub-score is scored with the
neutral value 50 for the invoice term (both in the per-debrief history
composite and in the technician-stats aggregate), while a binary checklist
item explicitly marked `NA` or `FAIL` contributes a real zero. -/
theorem missing_invoice_neutral_explicit_na_fail_zero :
    (∀ d : DebriefScoreRow, d.invoice_summary_score = none →
      historyCompositeScore d = round1 ((passBit d.photos_reviewed * 100 * 2 +
        passBit d.payment_verified * 100 * 2 + passBit d.estimates_verified * 100 * 2 +
        (50 : ℚ) * 2 + passBit d.membership_verified * 100 * 1 +
        passBit d.google_reviews_discussed * 100 * 1) / 10)) ∧
    techInvoicePct none = 50 ∧
    (∀ st : CheckStatus, st = .na ∨ st = .fail → passBit st * 100 = 0) := by
  refine ⟨?_, rfl, ?_⟩
  · intro d hnone
    simp only [historyCompositeScore, historyComposite, hnone, invoiceScoreOr5]
    norm_num
  · intro st hst
    rcases hst with h | h <;> subst h <;> simp [passBit]

/-- A row with no recorded invoice sub-score. -/
def noScoreRow : DebriefScoreRow :=
  { photos_reviewed := .pass, payment_verified := .fail, estimates_verified := .na,
    membership_verified := .pending, google_reviews_discussed := .pass,
    invoice_summary_score := none }

theorem missing_invoice_neutral_explicit_na_fail_zero_witness :
    (historyCompositeScore noScoreRow = round1 ((passBit noScoreRow.photos_reviewed * 100 * 2 +
        passBit noScoreRow.payment_verified * 100 * 2 +
        passBit noScoreRow.estimates_verified * 100 * 2 +
        (50 : ℚ) * 2 + passBit noScoreRow.membership_verified * 100 * 1 +
        passBit noScoreRow.google_reviews_discussed * 100 * 1) / 10)) ∧
    passBit .na * 100 = 0 :=
  ⟨missing_invoice_neutral_explicit_na_fail_zero.1 noScoreRow rfl,
    missing_invoice_neutral_explicit_na_fail_zero.2.2 .na (Or.inl rfl)⟩

end DebriefQA

namespace DebriefQA

/-!
## Spot-check rows, review submission, and the Dispatcher Accuracy Aggregator

Embedding of the `spot_checks` table row (`app/database.py`), of
`submit_spot_check` (`app/main.py` lines 1871–1931) and of
`calculate_dispatcher_accuracy` (`app/spot_check.py` lines 195–310).
-/

/-- The `spot_checks` row fields used by selection, review submission and
the accuracy aggregator (`app/database.py` lines 247–300). -/
structure SpotCheckRow where
  id : ℕ
  debrief_session_id : ℕ
  reviewer_id : Option ℕ
  selection_reason : String
  selection_batch : ℕ
  status : SpotCheckStatus
  photos_correct : Option Bool
  invoice_score_correct : Option Bool
  payment_correct : Option Bool
  estimates_correct : Option Bool
  membership_correct : Option Bool
  reviews_correct : Option Bool
  replacement_correct : Option Bool
  equipment_correct : Option Bool
  corrected_invoice_score : Option ℤ
  overall_grade : Option ℤ
  coaching_needed : Bool
deriving DecidableEq, Repr

/-- Submitted HTML form values: field name to raw string value. -/
def FormData : Type := String → Option String

/-- Python truthiness of `form_data.get(k)`: present and non-empty. -/
def formTruthy (form : FormData) (k : String) : Bool :=
  match form k with
  | none => false
  | some s => decide (s ≠ "")

/-- `form_data.get(k) == "true"`. -/
def formIsTrue (form : FormData) (k : String) : Bool :=
  decide (form k = some "true")

/-- `submit_spot_check` (`app/main.py` lines 1871–1931): parse the review
form, store item-by-item correctness, notes aside, and mark the spot check
completed.  Each correctness column receives the definite boolean
`form_data.get(item) == "true"`. -/
def submit_spot_check (form : FormData) (sc : SpotCheckRow) : SpotCheckRow :=
  { sc with
    reviewer_id := if formTruthy form "reviewer_id"
      then (form "reviewer_id").bind String.toNat? else sc.reviewer_id,
    photos_correct := some (formIsTrue form "photos_correct"),
    invoice_score_correct := some (formIsTrue form "invoice_score_correct"),
    payment_correct := some (formIsTrue form "payment_correct"),
    estimates_correct := some (formIsTrue form "estimates_correct"),
    membership_correct := some (formIsTrue form "membership_correct"),
    reviews_correct := some (formIsTrue form "reviews_correct"),
    replacement_correct := some (formIsTrue form "replacement_correct"),
    equipment_correct := some (formIsTrue form "equipment_correct"),
    corrected_invoice_score := if formTruthy form "corrected_invoice_score"
      then (form "corrected_invoice_score").bind String.toInt?
      else sc.corrected_invoice_score,
    overall_grade := if formTruthy form "overall_grade"
      then (form "overall_grade").bind String.toInt? else sc.overall_grade,
    coaching_needed := formIsTrue form "coaching_needed",
    status := .completed }

/-- Per-item `correct/total` tally of `calculate_dispatcher_accuracy`
(`app/spot_check.py` lines 230–270): a spot check counts only when the
selected correctness column is non-null. -/
def itemTally (sel : SpotCheckRow → Option Bool) (scs : List SpotCheckRow) : ℕ × ℕ :=
  scs.foldl
    (fun acc sc =>
      match sel sc with
      | none => acc
      | some b => (acc.1 + (if b then 1 else 0), acc.2 + 1))
    (0, 0)

/-- The eight checkable items with their weights
(`app/spot_check.py` lines 217–226). -/
def accuracyItems : List ((SpotCheckRow → Option Bool) × ℚ) :=
  [(SpotCheckRow.photos_correct, 2), (SpotCheckRow.invoice_score_correct, 4),
   (SpotCheckRow.payment_correct, 2), (SpotCheckRow.estimates_correct, 2),
   (SpotCheckRow.membership_correct, 1), (SpotCheckRow.reviews_correct, 1),
   (SpotCheckRow.replacement_correct, 1), (SpotCheckRow.equipment_correct, 1)]

/-- The item tallies paired with their weights. -/
def accuracyTallies (scs : List SpotCheckRow) : List ((ℕ × ℕ) × ℚ) :=
  accuracyItems.map fun iw => (itemTally iw.1 scs, iw.2)

/-- One step of the weighted-accuracy accumulation
(`app/spot_check.py` lines 285–291): an item with `total = 0` contributes
to neither the weighted sum nor the total weight. -/
def weightedStep (acc : ℚ × ℚ) (t : (ℕ × ℕ) × ℚ) : ℚ × ℚ :=
  if 0 < t.1.2 then
    (acc.1 + ((t.1.1 : ℚ) / (t.1.2 : ℚ) * 100) * t.2, acc.2 + t.2)
  else acc

/-- Accuracy report fields of `calculate_dispatcher_accuracy`. -/
structure AccuracyReport where
  overall_accuracy : Option ℚ
  sample_size : ℕ
  avg_grade : Option ℚ
  coaching_needed_count : ℕ
deriving DecidableEq, Repr

/-- `calculate_dispatcher_accuracy` (`app/spot_check.py` lines 195–310). -/
def calculate_dispatcher_accuracy (scs : List SpotCheckRow) : AccuracyReport :=
  if scs = [] then
    { overall_accuracy := none, sample_size := 0, avg_grade := none,
      coaching_needed_count := 0 }
  else
    let ws := (accuracyTallies scs).foldl weightedStep (0, 0)
    let overall := if 0 < ws.2 then some (round1 (ws.1 / ws.2)) else none
    let grades := scs.filterMap (·.overall_grade)
    let avg := if grades = [] then none
      else some (round1 ((grades.map fun g => (g : ℚ)).sum / (grades.length : ℚ)))
    { overall_accuracy := overall, sample_size := scs.length, avg_grade := avg,
      coaching_needed_count := (scs.filter (·.coaching_needed)).length }

/-- Spec-side overall accuracy (§4.5): over the items with at least one
evaluated sample, the weighted average of `correct/total × 100`; items with
zero evaluated samples are excluded from numerator and denominator; `null`
when no item was evaluated. -/
def specOverallAccuracy (scs : List SpotCheckRow) : Option ℚ :=
  let evaluated := (accuracyTallies scs).filter fun t => decide (0 < t.1.2)
  if evaluated = [] then none
  else some (round1
    ((evaluated.map fun t => ((t.1.1 : ℚ) / (t.1.2 : ℚ) * 100) * t.2).sum /
      (evaluated.map fun t => t.2).sum))

theorem foldl_weightedStep (l : List ((ℕ × ℕ) × ℚ)) (a b : ℚ) :
    l.foldl weightedStep (a, b) =
      (a + ((l.filter fun t => decide (0 < t.1.2)).map
          fun t => ((t.1.1 : ℚ) / (t.1.2 : ℚ) * 100) * t.2).sum,
       b + ((l.filter fun t => decide (0 < t.1.2)).map fun t => t.2).sum) := by
  induction l generalizing a b with
  | nil => simp
  | cons hd tl ih =>
    rw [List.foldl_cons]
    by_cases h : 0 < hd.1.2
    · rw [List.filter_cons_of_pos (by simpa using h)]
      simp only [weightedStep, if_pos h, ih, List.map_cons, List.sum_cons, Prod.mk.injEq]
      constructor <;> ring
    · rw [List.filter_cons_of_neg (by simpa using h)]
      simp only [weightedStep, if_neg h, ih]

theorem accuracyItems_weight_pos : ∀ iw ∈ accuracyItems, (0 : ℚ) < iw.2 := by
  intro iw h
  simp only [accuracyItems, List.mem_cons, List.not_mem_nil, or_false] at h
  rcases h with h | h | h | h | h | h | h | h <;> rw [h] <;> norm_num

theorem accuracyTallies_weight_pos (scs : List SpotCheckRow) :
    ∀ t ∈ accuracyTallies scs, (0 : ℚ) < t.2 := by
  intro t ht
  simp only [accuracyTallies, List.mem_map] at ht
  obtain ⟨iw, hiw, rfl⟩ := ht
  exact accuracyItems_weight_pos iw hiw

end DebriefQA

namespace DebriefQA

/-- **C9**: for every dispatcher the overall accuracy is the weighted average
of per-item accuracies with weights `photos=2, invoice=4, payment=2,
estimates=2, membership=1, reviews=1, replacement=1, equipment=1`, an item
with zero evaluated samples contributing to neither numerator nor
denominator; with zero completed spot checks the report has
`overall_accuracy = null` and `sample_size = 0`. -/
theorem overall_accuracy_weighted_average (scs : List SpotCheckRow) :
    (calculate_dispatcher_accuracy scs).overall_accuracy = specOverallAccuracy scs ∧
    (calculate_dispatcher_accuracy []).overall_accuracy = none ∧
    (calculate_dispatcher_accuracy []).sample_size = 0 := by
  refine ⟨?_, by simp [calculate_dispatcher_accuracy], by simp [calculate_dispatcher_accuracy]⟩
  by_cases hscs : scs = []
  · subst hscs
    simp [calculate_dispatcher_accuracy, specOverallAccuracy, accuracyTallies,
      accuracyItems, itemTally]
  · simp only [calculate_dispatcher_accuracy, if_neg hscs, specOverallAccuracy]
    rw [foldl_weightedStep]
    simp only [zero_add]
    by_cases hl : (accuracyTallies scs).filter (fun t => decide (0 < t.1.2)) = []
    · simp [hl]
    · have hpos : 0 < (((accuracyTallies scs).filter
          (fun t => decide (0 < t.1.2))).map fun t => t.2).sum := by
        apply List.sum_pos
        · intro x hx
          obtain ⟨t, ht, rfl⟩ := List.mem_map.mp hx
          exact accuracyTallies_weight_pos scs t (List.mem_of_mem_filter ht)
        · simpa using hl
      simp [hl, if_pos hpos]

end DebriefQA

namespace DebriefQA

/-- A review form on which the reviewer evaluated nothing. -/
def emptyReviewForm : FormData := fun _ => none

/-- A freshly selected, still pending spot-check row. -/
def pendingSpotCheckRow : SpotCheckRow :=
  { id := 1, debrief_session_id := 1, reviewer_id := none,
    selection_reason := "flagged", selection_batch := 0, status := .pending,
    photos_correct := none, invoice_score_correct := none, payment_correct := none,
    estimates_correct := none, membership_correct := none, reviews_correct := none,
    replacement_correct := none, equipment_correct := none,
    corrected_invoice_score := none, overall_grade := none, coaching_needed := false }

/-- **C1 counterexample**: submitting a spot-check review on which the
reviewer did not evaluate the photos item does not store it as non-evaluated
(null): it is stored as the definite boolean `false`, and it then counts in
the denominator of the photos tally of the accuracy computation. -/
theorem submit_spot_check_null_storage_counterexample :
    (submit_spot_check emptyReviewForm pendingSpotCheckRow).photos_correct ≠ none ∧
    (submit_spot_check emptyReviewForm pendingSpotCheckRow).photos_correct = some false ∧
    itemTally SpotCheckRow.photos_correct
      [submit_spot_check emptyReviewForm pendingSpotCheckRow] = (0, 1) := by
  refine ⟨?_, rfl, rfl⟩
  simp [submit_spot_check, emptyReviewForm, pendingSpotCheckRow, formIsTrue]

/-- **C1 amended**: `submit_spot_check` stores every one of the eight
checkable items as a definite boolean (`true` exactly when the form field is
the string `"true"`, hence `false` for an unevaluated item), so null
correctness never results from review submission; the accuracy computation
does skip a spot check with null correctness for an item, contributing to
neither the numerator nor the denominator of that item's tally. -/
theorem submit_spot_check_definite_and_null_skipped :
    (∀ (form : FormData) (sc : SpotCheckRow), ∀ iw ∈ accuracyItems,
      (iw.1 (submit_spot_check form sc)).isSome) ∧
    (∀ (sel : SpotCheckRow → Option Bool) (sc : SpotCheckRow)
        (l1 l2 : List SpotCheckRow), sel sc = none →
      itemTally sel (l1 ++ sc :: l2) = itemTally sel (l1 ++ l2)) := by
  constructor
  · intro form sc iw hiw
    simp only [accuracyItems, List.mem_cons, List.not_mem_nil, or_false] at hiw
    rcases hiw with h | h | h | h | h | h | h | h <;> subst h <;>
      simp [submit_spot_check]
  · intro sel sc l1 l2 hnone
    simp only [itemTally, List.foldl_append, List.foldl_cons, hnone]

end DebriefQA

namespace DebriefQA

theorem submit_spot_check_definite_and_null_skipped_witness :
    (((SpotCheckRow.photos_correct, (2 : ℚ)).1
        (submit_spot_check emptyReviewForm pendingSpotCheckRow)).isSome) ∧
    itemTally SpotCheckRow.photos_correct ([] ++ pendingSpotCheckRow :: []) =
      itemTally SpotCheckRow.photos_correct ([] ++ []) :=
  ⟨submit_spot_check_definite_and_null_skipped.1 emptyReviewForm pendingSpotCheckRow
      (SpotCheckRow.photos_correct, 2) (by simp [accuracyItems]),
   submit_spot_check_definite_and_null_skipped.2 SpotCheckRow.photos_correct
      pendingSpotCheckRow [] [] rfl⟩

end DebriefQA

namespace DebriefQA

/-!
## Record store and the Spot-Check Sampling Engine

Embedding of the `debrief_sessions` / `tickets_raw` rows used by the engine
(`app/database.py`) and of `select_daily_spot_checks`
(`app/spot_check.py` lines 23–135).  The Central-Time day window of the
source is modelled as a day index on each debrief row; `random.sample` is a
parameter `sample` constrained only by the structural properties of sampling
without replacement.
-/

/-- The `debrief_sessions` row fields read by the sampling engine, the reset
guard and the checklist engine. -/
structure DebriefRow where
  id : ℕ
  job_id : ℕ
  dispatcher_id : ℕ
  completed_date : ℕ
  followup_required : Bool
  followup_type : Option String
  invoice_summary_score : Option ℤ
deriving DecidableEq, Repr

/-- The `tickets_raw` row fields read by the engine: the unique external job
identifier and the mutable debrief status. -/
structure Ticket where
  job_id : ℕ
  debrief_status : TicketStatus
deriving DecidableEq, Repr

/-- The persisted store: the three record types plus autoincrement counters. -/
structure Store where
  tickets : List Ticket
  debriefs : List DebriefRow
  spotChecks : List SpotCheckRow
  nextDebriefId : ℕ
  nextSpotCheckId : ℕ
deriving DecidableEq, Repr

/-- `db.query(SpotCheck).filter(SpotCheck.debrief_session_id == d.id).first()`
as an existence check. -/
def hasSpotCheck (s : Store) (did : ℕ) : Bool :=
  s.spotChecks.any fun sc => decide (sc.debrief_session_id = did)

/-- The debrief ids referenced by the stored spot checks. -/
def spotDebriefIds (s : Store) : List ℕ := s.spotChecks.map (·.debrief_session_id)

/-- A freshly created spot-check record
(`app/spot_check.py` lines 114–120). -/
def newSpotCheckRow (id did : ℕ) (reason : String) (batch : ℕ) : SpotCheckRow :=
  { id := id, debrief_session_id := did, reviewer_id := none,
    selection_reason := reason, selection_batch := batch, status := .pending,
    photos_correct := none, invoice_score_correct := none, payment_correct := none,
    estimates_correct := none, membership_correct := none, reviews_correct := none,
    replacement_correct := none, equipment_correct := none,
    corrected_invoice_score := none, overall_grade := none, coaching_needed := false }

/-- Result record of `select_daily_spot_checks`. -/
structure SelectionResult where
  batch_date : ℕ
  total_debriefs : ℕ
  selected_count : ℕ
  flagged_count : ℕ
  random_count : ℕ
  spot_check_ids : List ℕ
deriving DecidableEq, Repr

/-- `target_count = max(1, int(total_count * target_percentage))`
(`app/spot_check.py` line 79). -/
def targetCount (total : ℕ) (pct : ℚ) : ℕ :=
  (max 1 (pyInt ((total : ℚ) * pct))).toNat

/-- The `debriefs` local of `select_daily_spot_checks`: all debriefs
completed on the target date (`app/spot_check.py` lines 61–66). -/
def dayDebriefs (s : Store) (date : ℕ) : List DebriefRow :=
  s.debriefs.filter fun d => decide (d.completed_date = date)

/-- The debriefs of the day that do not already hold a spot check
(the skip at `app/spot_check.py` lines 86–91). -/
def eligibleDebriefs (s : Store) (date : ℕ) : List DebriefRow :=
  (dayDebriefs s date).filter fun d => !(hasSpotCheck s d.id)

/-- The `flagged` partition (`app/spot_check.py` lines 93–94). -/
def flaggedOf (s : Store) (date : ℕ) : List DebriefRow :=
  (eligibleDebriefs s date).filter fun d => d.followup_required

/-- The `regular` partition (`app/spot_check.py` lines 95–96). -/
def regularOf (s : Store) (date : ℕ) : List DebriefRow :=
  (eligibleDebriefs s date).filter fun d => !d.followup_required

/-- The `selected` list of (debrief, selection reason) pairs
(`app/spot_check.py` lines 98–109): all flagged up to the target count,
then random picks from the regular pool to fill the remaining slots. -/
def selectedPairs (sample : List DebriefRow → ℕ → List DebriefRow)
    (s : Store) (date : ℕ) (pct : ℚ) : List (DebriefRow × String) :=
  let target_count := targetCount (dayDebriefs s date).length pct
  let selectedFlagged := (flaggedOf s date).take target_count
  let remaining := target_count - selectedFlagged.length
  let randomPicks :=
    if 0 < remaining ∧ regularOf s date ≠ [] then
      sample (regularOf s date) (min remaining (regularOf s date).length)
    else []
  selectedFlagged.map (fun d => (d, "flagged")) ++ randomPicks.map (fun d => (d, "random"))

/-- `select_daily_spot_checks` (`app/spot_check.py` lines 23–135).
`sample` stands for `random.sample`. -/
def select_daily_spot_checks (sample : List DebriefRow → ℕ → List DebriefRow)
    (s : Store) (target_date : ℕ) (target_percentage : ℚ) :
    Store × SelectionResult :=
  if dayDebriefs s target_date = [] then
    (s, { batch_date := target_date, total_debriefs := 0, selected_count := 0,
          flagged_count := 0, random_count := 0, spot_check_ids := [] })
  else
    let selected := selectedPairs sample s target_date target_percentage
    let newRows := selected.enum.map fun p =>
      newSpotCheckRow (s.nextSpotCheckId + p.1) p.2.1.id p.2.2 target_date
    ({ s with
        spotChecks := s.spotChecks ++ newRows,
        nextSpotCheckId := s.nextSpotCheckId + selected.length },
     { batch_date := target_date, total_debriefs := (dayDebriefs s target_date).length,
       selected_count := selected.length,
       flagged_count := (selected.filter fun p => decide (p.2 = "flagged")).length,
       random_count := (selected.filter fun p => decide (p.2 = "random")).length,
       spot_check_ids := newRows.map (·.id) })

/-- Structural properties of `random.sample(xs, k)` for `k ≤ len(xs)`:
the picks come from `xs`, are pairwise distinct, and there are exactly `k`
of them. -/
def SampleOk (sample : List DebriefRow → ℕ → List DebriefRow) : Prop :=
  ∀ xs k, (∀ d ∈ sample xs k, d ∈ xs) ∧
    (xs.Nodup → (sample xs k).Nodup) ∧
    (sample xs k).length = min k xs.length

/-- A deterministic instance of `random.sample`: take the first `k`. -/
def sampleTake (xs : List DebriefRow) (k : ℕ) : List DebriefRow := xs.take k

theorem sampleTake_ok : SampleOk sampleTake := by
  intro xs k
  refine ⟨fun d hd => List.take_subset k xs hd, fun h => h.sublist (List.take_sublist k xs),
    List.length_take k xs⟩

end DebriefQA

namespace DebriefQA

theorem targetCount_eq_floor (n : ℕ) (pct : ℚ) (h : 0 ≤ pct) :
    targetCount n pct = max 1 (Int.toNat ⌊(n : ℚ) * pct⌋) := by
  have h0 : 0 ≤ (n : ℚ) * pct := mul_nonneg (by positivity) h
  simp only [targetCount, pyInt, if_pos h0]
  omega

theorem selectedPairs_flagged_len (sample : List DebriefRow → ℕ → List DebriefRow)
    (s : Store) (date : ℕ) (pct : ℚ) :
    ((selectedPairs sample s date pct).filter fun p => decide (p.2 = "flagged")).length =
      min (targetCount (dayDebriefs s date).length pct) (flaggedOf s date).length := by
  have h1 : ∀ l : List DebriefRow,
      ((l.map fun d => (d, "flagged")).filter
        fun p : DebriefRow × String => decide (p.2 = "flagged")) =
          l.map fun d => (d, "flagged") := by
    intro l
    refine List.filter_eq_self.mpr fun b hb => ?_
    obtain ⟨d, _, rfl⟩ := List.mem_map.mp hb
    simp
  have h2 : ∀ l : List DebriefRow,
      ((l.map fun d => (d, "random")).filter
        fun p : DebriefRow × String => decide (p.2 = "flagged")) = [] := by
    intro l
    refine List.filter_eq_nil_iff.mpr fun b hb => ?_
    obtain ⟨d, _, rfl⟩ := List.mem_map.mp hb
    simp
  simp only [selectedPairs, List.filter_append, List.length_append]
  rw [h1, h2]
  simp [List.length_take]

end DebriefQA

namespace DebriefQA

theorem selectedPairs_random_len (sample : List DebriefRow → ℕ → List DebriefRow)
    (hsample : SampleOk sample) (s : Store) (date : ℕ) (pct : ℚ) :
    ((selectedPairs sample s date pct).filter fun p => decide (p.2 = "random")).length =
      min (targetCount (dayDebriefs s date).length pct -
          min (targetCount (dayDebriefs s date).length pct) (flaggedOf s date).length)
        (regularOf s date).length := by
  have h1 : ∀ l : List DebriefRow,
      ((l.map fun d => (d, "flagged")).filter
        fun p : DebriefRow × String => decide (p.2 = "random")) = [] := by
    intro l
    refine List.filter_eq_nil_iff.mpr fun b hb => ?_
    obtain ⟨d, _, rfl⟩ := List.mem_map.mp hb
    simp
  have h2 : ∀ l : List DebriefRow,
      ((l.map fun d => (d, "random")).filter
        fun p : DebriefRow × String => decide (p.2 = "random")) =
          l.map fun d => (d, "random") := by
    intro l
    refine List.filter_eq_self.mpr fun b hb => ?_
    obtain ⟨d, _, rfl⟩ := List.mem_map.mp hb
    simp
  simp only [selectedPairs, List.filter_append, List.length_append]
  rw [h1, h2]
  simp only [List.length_nil, List.length_map, List.length_take, zero_add]
  by_cases hg : 0 < targetCount (dayDebriefs s date).length pct -
      min (targetCount (dayDebriefs s date).length pct) (flaggedOf s date).length ∧
      regularOf s date ≠ []
  · rw [if_pos hg, (hsample (regularOf s date) _).2.2]
    omega
  · rw [if_neg hg]
    rcases not_and_or.mp hg with h | h
    · simp only [List.length_nil]
      omega
    · have hreg : regularOf s date = [] := not_not.mp h
      simp [hreg]

end DebriefQA

namespace DebriefQA

theorem select_result_counts (sample : List DebriefRow → ℕ → List DebriefRow)
    (s : Store) (date : ℕ) (pct : ℚ) (hne : dayDebriefs s date ≠ []) :
    (select_daily_spot_checks sample s date pct).2.flagged_count =
      ((selectedPairs sample s date pct).filter fun p => decide (p.2 = "flagged")).length ∧
    (select_daily_spot_checks sample s date pct).2.random_count =
      ((selectedPairs sample s date pct).filter fun p => decide (p.2 = "random")).length := by
  simp [select_daily_spot_checks, hne]

/-- A debrief row completed on day 0. -/
def mkDayDebrief (i : ℕ) (flag : Bool) : DebriefRow :=
  { id := i, job_id := 100 + i, dispatcher_id := 1, completed_date := 0,
    followup_required := flag, followup_type := none, invoice_summary_score := some 5 }

/-- A store holding 20 debriefs completed on day 0, of which the first 3
are flagged, and no spot checks. -/
def store20 : Store :=
  { tickets := [],
    debriefs :=
      [mkDayDebrief 1 true, mkDayDebrief 2 true, mkDayDebrief 3 true,
       mkDayDebrief 4 false, mkDayDebrief 5 false, mkDayDebrief 6 false,
       mkDayDebrief 7 false, mkDayDebrief 8 false, mkDayDebrief 9 false,
       mkDayDebrief 10 false, mkDayDebrief 11 false, mkDayDebrief 12 false,
       mkDayDebrief 13 false, mkDayDebrief 14 false, mkDayDebrief 15 false,
       mkDayDebrief 16 false, mkDayDebrief 17 false, mkDayDebrief 18 false,
       mkDayDebrief 19 false, mkDayDebrief 20 false],
    spotChecks := [], nextDebriefId := 21, nextSpotCheckId := 1 }

/-- **C8**: for a non-empty day of debriefs, the engine computes
`target_count = max(1, floor(total × fraction))` over the full day's total;
it selects all flagged eligible debriefs capped at the target count (when
there are more flagged than the target, exactly `target_count` flagged and
no random ones), and fills the remaining slots from the regular pool by
sampling without replacement; in particular 20 debriefs with 3 flagged at
fraction 0.10 gives target 2, exactly 2 flagged selected and 0 random. -/
theorem select_daily_spot_checks_counts
    (sample : List DebriefRow → ℕ → List DebriefRow) (hsample : SampleOk sample)
    (s : Store) (date : ℕ) (pct : ℚ) (hpct : 0 ≤ pct)
    (hne : dayDebriefs s date ≠ []) :
    targetCount (dayDebriefs s date).length pct =
      max 1 (Int.toNat ⌊((dayDebriefs s date).length : ℚ) * pct⌋) ∧
    (select_daily_spot_checks sample s date pct).2.flagged_count =
      min (targetCount (dayDebriefs s date).length pct) (flaggedOf s date).length ∧
    (targetCount (dayDebriefs s date).length pct < (flaggedOf s date).length →
      (select_daily_spot_checks sample s date pct).2.flagged_count =
        targetCount (dayDebriefs s date).length pct ∧
      (select_daily_spot_checks sample s date pct).2.random_count = 0) ∧
    (select_daily_spot_checks sample s date pct).2.random_count =
      min (targetCount (dayDebriefs s date).length pct -
          min (targetCount (dayDebriefs s date).length pct) (flaggedOf s date).length)
        (regularOf s date).length ∧
    (∀ p ∈ selectedPairs sample s date pct, p.2 = "random" → p.1 ∈ regularOf s date) ∧
    (targetCount (dayDebriefs store20 0).length (1 / 10) = 2 ∧
      (select_daily_spot_checks sampleTake store20 0 (1 / 10)).2.flagged_count = 2 ∧
      (select_daily_spot_checks sampleTake store20 0 (1 / 10)).2.random_count = 0) := by
  obtain ⟨hfc, hrc⟩ := select_result_counts sample s date pct hne
  have hflen := selectedPairs_flagged_len sample s date pct
  have hrlen := selectedPairs_random_len sample hsample s date pct
  have hT2 : targetCount (dayDebriefs store20 0).length (1 / 10) = 2 := by
    have hlen20 : (dayDebriefs store20 0).length = 20 := by decide
    rw [hlen20]
    norm_num [targetCount, pyInt]
    decide
  refine ⟨targetCount_eq_floor _ pct hpct, by rw [hfc, hflen], ?_, by rw [hrc, hrlen], ?_, ?_⟩
  · intro hlt
    constructor
    · rw [hfc, hflen]
      omega
    · rw [hrc, hrlen]
      omega
  · intro p hp hrand
    simp only [selectedPairs, List.mem_append] at hp
    rcases hp with h | h
    · obtain ⟨d, _, rfl⟩ := List.mem_map.mp h
      simp at hrand
    · obtain ⟨d, hd, rfl⟩ := List.mem_map.mp h
      by_cases hg : 0 < targetCount (dayDebriefs s date).length pct -
          ((flaggedOf s date).take (targetCount (dayDebriefs s date).length pct)).length ∧
          regularOf s date ≠ []
      · rw [if_pos hg] at hd
        exact (hsample (regularOf s date) _).1 d hd
      · rw [if_neg hg] at hd
        exact absurd hd (List.not_mem_nil d)
  · have hne20 : dayDebriefs store20 0 ≠ [] := by decide
    obtain ⟨hfc20, hrc20⟩ := select_result_counts sampleTake store20 0 (1 / 10) hne20
    have hflen20 := selectedPairs_flagged_len sampleTake store20 0 (1 / 10)
    have hrlen20 := selectedPairs_random_len sampleTake sampleTake_ok store20 0 (1 / 10)
    have hflag3 : (flaggedOf store20 0).length = 3 := by decide
    have hreg17 : (regularOf store20 0).length = 17 := by decide
    refine ⟨hT2, ?_, ?_⟩
    · rw [hfc20, hflen20, hT2, hflag3]
      decide
    · rw [hrc20, hrlen20, hT2, hflag3, hreg17]
      decide

end DebriefQA

namespace DebriefQA

theorem select_daily_spot_checks_counts_witness :
    (0 : ℚ) ≤ 1 / 10 ∧ dayDebriefs store20 0 ≠ [] ∧
    (targetCount (dayDebriefs store20 0).length (1 / 10) = 2 ∧
      (select_daily_spot_checks sampleTake store20 0 (1 / 10)).2.flagged_count = 2 ∧
      (select_daily_spot_checks sampleTake store20 0 (1 / 10)).2.random_count = 0) :=
  ⟨by simp, by decide,
    (select_daily_spot_checks_counts sampleTake sampleTake_ok store20 0 (1 / 10)
      (by simp) (by decide)).2.2.2.2.2⟩

/-- Two flagged debriefs completed on day 0, no spot checks yet. -/
def storeTwoFlagged : Store :=
  { tickets := [], debriefs := [mkDayDebrief 1 true, mkDayDebrief 2 true],
    spotChecks := [], nextDebriefId := 3, nextSpotCheckId := 1 }

/-- The store after the first daily selection run on `storeTwoFlagged`:
the first flagged debrief got a spot check. -/
def storeTwoAfter1 : Store :=
  { tickets := [], debriefs := [mkDayDebrief 1 true, mkDayDebrief 2 true],
    spotChecks := [newSpotCheckRow 1 1 "flagged" 0], nextDebriefId := 3,
    nextSpotCheckId := 2 }

theorem select_storeTwoFlagged_run1 :
    (select_daily_spot_checks sampleTake storeTwoFlagged 0 (1 / 10)).1 = storeTwoAfter1 := by
  norm_num [select_daily_spot_checks, selectedPairs, dayDebriefs, eligibleDebriefs, flaggedOf,
    regularOf, hasSpotCheck, storeTwoFlagged, mkDayDebrief, newSpotCheckRow, sampleTake,
    targetCount, pyInt]
  decide

theorem select_storeTwoFlagged_run2 :
    (select_daily_spot_checks sampleTake storeTwoAfter1 0 (1 / 10)).1.spotChecks.length = 2 := by
  norm_num [select_daily_spot_checks, selectedPairs, dayDebriefs, eligibleDebriefs, flaggedOf,
    regularOf, hasSpotCheck, storeTwoAfter1, storeTwoFlagged, mkDayDebrief, newSpotCheckRow,
    sampleTake, targetCount, pyInt]
  decide

/-- **C2 counterexample**: with two flagged debriefs completed on the target
date, the first run for that date creates one spot check, and re-running
`select_daily_spot_checks` for the same date creates a second one — the
stored set of spot checks changes, so the routine is not idempotent. -/
theorem select_daily_not_idempotent_counterexample :
    (select_daily_spot_checks sampleTake storeTwoFlagged 0 (1 / 10)).1.spotChecks.length = 1 ∧
    (select_daily_spot_checks sampleTake
      (select_daily_spot_checks sampleTake storeTwoFlagged 0 (1 / 10)).1 0
      (1 / 10)).1.spotChecks.length = 2 := by
  constructor
  · rw [select_storeTwoFlagged_run1]
    decide
  · rw [select_storeTwoFlagged_run1]
    exact select_storeTwoFlagged_run2

/-- **C2 amended**: a rerun for the same date never duplicates a spot check,
yet it can still select previously unselected debriefs; once every debrief
of the target date already holds a spot check, a further run for that date
leaves the stored set of spot checks unchanged. -/
theorem select_daily_idempotent_when_exhausted
    (sample : List DebriefRow → ℕ → List DebriefRow) (s : Store) (date : ℕ) (pct : ℚ)
    (h : ∀ d ∈ dayDebriefs s date, hasSpotCheck s d.id = true) :
    (select_daily_spot_checks sample s date pct).1.spotChecks = s.spotChecks := by
  by_cases hne : dayDebriefs s date = []
  · simp [select_daily_spot_checks, hne]
  · have helig : eligibleDebriefs s date = [] := by
      refine List.filter_eq_nil_iff.mpr fun d hd => ?_
      simp [h d hd]
    have hfl : flaggedOf s date = [] := by simp [flaggedOf, helig]
    have hreg : regularOf s date = [] := by simp [regularOf, helig]
    have hsel : selectedPairs sample s date pct = [] := by
      simp [selectedPairs, hfl, hreg]
    simp [select_daily_spot_checks, hne, hsel]

/-- One flagged day-0 debrief that already holds a spot check. -/
def storeOneChecked : Store :=
  { tickets := [], debriefs := [mkDayDebrief 1 true],
    spotChecks := [newSpotCheckRow 1 1 "manual" 0], nextDebriefId := 2,
    nextSpotCheckId := 2 }

theorem select_daily_idempotent_when_exhausted_witness :
    (select_daily_spot_checks sampleTake storeOneChecked 0 (1 / 10)).1.spotChecks =
      storeOneChecked.spotChecks :=
  select_daily_idempotent_when_exhausted sampleTake storeOneChecked 0 (1 / 10) (by decide)

end DebriefQA

namespace DebriefQA

theorem nodup_map_of_mem_of_nodup {α β : Type} (f : α → β) {l m : List α}
    (hm : (m.map f).Nodup) (hl : l.Nodup) (hsub : ∀ x ∈ l, x ∈ m) :
    (l.map f).Nodup :=
  List.Nodup.map_on
    (fun x hx y hy hxy => List.inj_on_of_nodup_map hm (hsub x hx) (hsub y hy) hxy) hl

theorem eligible_sublist (s : Store) (date : ℕ) :
    (eligibleDebriefs s date).Sublist s.debriefs :=
  ((dayDebriefs s date).filter_sublist.trans (s.debriefs.filter_sublist))

theorem eligible_ids_nodup (s : Store) (date : ℕ)
    (hdeb : (s.debriefs.map (·.id)).Nodup) :
    ((eligibleDebriefs s date).map (·.id)).Nodup :=
  hdeb.sublist ((eligible_sublist s date).map (·.id))

theorem mem_eligible_no_spot (s : Store) (date : ℕ) (d : DebriefRow)
    (hd : d ∈ eligibleDebriefs s date) : hasSpotCheck s d.id = false := by
  have := (List.mem_filter.mp hd).2
  simpa using this

theorem hasSpotCheck_eq_false_iff (s : Store) (did : ℕ) :
    hasSpotCheck s did = false ↔ did ∉ spotDebriefIds s := by
  simp [hasSpotCheck, spotDebriefIds, List.any_eq_true, List.mem_map]

end DebriefQA

namespace DebriefQA

theorem selectedPairs_fst_mem_eligible (sample : List DebriefRow → ℕ → List DebriefRow)
    (hsample : SampleOk sample) (s : Store) (date : ℕ) (pct : ℚ) :
    ∀ p ∈ selectedPairs sample s date pct, p.1 ∈ eligibleDebriefs s date := by
  intro p hp
  simp only [selectedPairs, List.mem_append] at hp
  rcases hp with h | h
  · obtain ⟨d, hd, rfl⟩ := List.mem_map.mp h
    exact List.mem_of_mem_filter (List.mem_of_mem_take hd)
  · obtain ⟨d, hd, rfl⟩ := List.mem_map.mp h
    by_cases hg : 0 < targetCount (dayDebriefs s date).length pct -
        ((flaggedOf s date).take (targetCount (dayDebriefs s date).length pct)).length ∧
        regularOf s date ≠ []
    · rw [if_pos hg] at hd
      exact List.mem_of_mem_filter ((hsample (regularOf s date) _).1 d hd)
    · rw [if_neg hg] at hd
      exact absurd hd (List.not_mem_nil d)

theorem mem_flaggedOf_followup (s : Store) (date : ℕ) (d : DebriefRow)
    (hd : d ∈ flaggedOf s date) : d.followup_required = true :=
  (List.mem_filter.mp hd).2

theorem mem_regularOf_followup (s : Store) (date : ℕ) (d : DebriefRow)
    (hd : d ∈ regularOf s date) : d.followup_required = false := by
  have := (List.mem_filter.mp hd).2
  simpa using this

theorem selectedPairs_ids_nodup (sample : List DebriefRow → ℕ → List DebriefRow)
    (hsample : SampleOk sample) (s : Store) (date : ℕ) (pct : ℚ)
    (hdeb : (s.debriefs.map (·.id)).Nodup) :
    ((selectedPairs sample s date pct).map fun p => p.1.id).Nodup := by
  have heids := eligible_ids_nodup s date hdeb
  have helig_nodup : (eligibleDebriefs s date).Nodup := heids.of_map
  have hflag_sub : ((flaggedOf s date).take
      (targetCount (dayDebriefs s date).length pct)).Sublist (eligibleDebriefs s date) :=
    (List.take_sublist _ _).trans (List.filter_sublist _)
  have hreg_sub : (regularOf s date).Sublist (eligibleDebriefs s date) :=
    List.filter_sublist _
  simp only [selectedPairs, List.map_append, List.map_map]
  have hcomp1 : ((fun p : DebriefRow × String => p.1.id) ∘ fun d => (d, "flagged")) =
      fun d : DebriefRow => d.id := rfl
  have hcomp2 : ((fun p : DebriefRow × String => p.1.id) ∘ fun d => (d, "random")) =
      fun d : DebriefRow => d.id := rfl
  rw [hcomp1, hcomp2]
  have hA : (((flaggedOf s date).take
      (targetCount (dayDebriefs s date).length pct)).map fun d => d.id).Nodup :=
    heids.sublist (hflag_sub.map _)
  by_cases hg : 0 < targetCount (dayDebriefs s date).length pct -
      ((flaggedOf s date).take (targetCount (dayDebriefs s date).length pct)).length ∧
      regularOf s date ≠ []
  · rw [if_pos hg]
    refine hA.append ?_ ?_
    · refine nodup_map_of_mem_of_nodup _ heids ?_ ?_
      · exact (hsample (regularOf s date) _).2.1 (helig_nodup.filter _)
      · intro x hx
        exact hreg_sub.subset ((hsample (regularOf s date) _).1 x hx)
    · intro a haA haB
      obtain ⟨d1, hd1, rfl⟩ := List.mem_map.mp haA
      obtain ⟨d2, hd2, hid⟩ := List.mem_map.mp haB
      have hd1e : d1 ∈ eligibleDebriefs s date := hflag_sub.subset hd1
      have hd2r : d2 ∈ regularOf s date := (hsample (regularOf s date) _).1 d2 hd2
      have hd2e : d2 ∈ eligibleDebriefs s date := hreg_sub.subset hd2r
      have : d2 = d1 := List.inj_on_of_nodup_map heids hd2e hd1e hid
      subst this
      have h1 := mem_flaggedOf_followup s date d2 (List.mem_of_mem_take hd1)
      have h2 := mem_regularOf_followup s date d2 hd2r
      rw [h1] at h2
      exact absurd h2 (by simp)
  · rw [if_neg hg]
    simpa using hA

end DebriefQA

namespace DebriefQA

theorem select_debriefs_eq (sample : List DebriefRow → ℕ → List DebriefRow)
    (s : Store) (date : ℕ) (pct : ℚ) :
    (select_daily_spot_checks sample s date pct).1.debriefs = s.debriefs := by
  by_cases hne : dayDebriefs s date = [] <;>
    simp [select_daily_spot_checks, hne]

theorem select_spotDebriefIds (sample : List DebriefRow → ℕ → List DebriefRow)
    (s : Store) (date : ℕ) (pct : ℚ) (hne : dayDebriefs s date ≠ []) :
    spotDebriefIds (select_daily_spot_checks sample s date pct).1 =
      spotDebriefIds s ++ ((selectedPairs sample s date pct).map fun p => p.1.id) := by
  simp only [select_daily_spot_checks, if_neg hne, spotDebriefIds, List.map_append,
    List.map_map]
  congr 1
  have : ((fun sc : SpotCheckRow => sc.debrief_session_id) ∘ fun p : ℕ × (DebriefRow × String) =>
      newSpotCheckRow (s.nextSpotCheckId + p.1) p.2.1.id p.2.2 date) =
      (fun p : DebriefRow × String => p.1.id) ∘ Prod.snd := rfl
  rw [this, ← List.map_map, List.enum_map_snd]

theorem select_preserves_spot_nodup (sample : List DebriefRow → ℕ → List DebriefRow)
    (hsample : SampleOk sample) (s : Store) (date : ℕ) (pct : ℚ)
    (hdeb : (s.debriefs.map (·.id)).Nodup) (hspot : (spotDebriefIds s).Nodup) :
    (spotDebriefIds (select_daily_spot_checks sample s date pct).1).Nodup := by
  by_cases hne : dayDebriefs s date = []
  · simpa [select_daily_spot_checks, hne] using hspot
  · rw [select_spotDebriefIds sample s date pct hne]
    refine hspot.append (selectedPairs_ids_nodup sample hsample s date pct hdeb) ?_
    intro a ha hb
    obtain ⟨p, hp, rfl⟩ := List.mem_map.mp hb
    have hpe := selectedPairs_fst_mem_eligible sample hsample s date pct p hp
    have hno := mem_eligible_no_spot s date p.1 hpe
    exact (hasSpotCheck_eq_false_iff s p.1.id).mp hno ha

/-- Iterated daily selection runs (`runs` lists the (date, fraction)
arguments of successive invocations). -/
def runSelections (sample : List DebriefRow → ℕ → List DebriefRow)
    (s : Store) (runs : List (ℕ × ℚ)) : Store :=
  runs.foldl (fun st r => (select_daily_spot_checks sample st r.1 r.2).1) s

/-- **C3**: over every sequence of daily selection runs (any dates, repeated
or not), no debrief ends up referenced by two spot checks: starting from a
store whose debrief ids are unique and whose spot checks reference pairwise
distinct debriefs, the spot checks still reference pairwise distinct
debriefs after the whole sequence. -/
theorem no_debrief_ever_double_spot_checked
    (sample : List DebriefRow → ℕ → List DebriefRow) (hsample : SampleOk sample)
    (s : Store) (runs : List (ℕ × ℚ))
    (hdeb : (s.debriefs.map (·.id)).Nodup) (hspot : (spotDebriefIds s).Nodup) :
    (spotDebriefIds (runSelections sample s runs)).Nodup := by
  induction runs generalizing s with
  | nil => exact hspot
  | cons r rs ih =>
    have hdeb2 : ((select_daily_spot_checks sample s r.1 r.2).1.debriefs.map (·.id)).Nodup := by
      rw [select_debriefs_eq]
      exact hdeb
    exact ih _ hdeb2 (select_preserves_spot_nodup sample hsample s r.1 r.2 hdeb hspot)

theorem no_debrief_ever_double_spot_checked_witness :
    (spotDebriefIds (runSelections sampleTake storeTwoFlagged
      [(0, 1 / 10), (0, 1 / 10)])).Nodup :=
  no_debrief_ever_double_spot_checked sampleTake sampleTake_ok storeTwoFlagged
    [(0, 1 / 10), (0, 1 / 10)] (by decide) (by decide)

end DebriefQA

namespace DebriefQA

/-!
## Debrief Checklist Engine, reset and the full operation surface

Embedding of `submit_debrief` (`app/main.py` lines 618–663),
`submit_debrief_form` (`app/main.py` lines 666–823), `reset_job_status`
(`app/main.py` lines 1369–1395), the ingestion guard of
`process_webhook`/`manual_add_job` (`app/webhook.py`),
`create_manual_spot_check` (`app/spot_check.py` lines 138–192) and the
spot-check review endpoint, combined into one step function over the store.
-/

/-- Python-level failures surfaced by the embedded handlers. -/
inductive PyError where
  | notFound
  | validationError
  | nameError (n : String)
  | valueError
deriving DecidableEq, Repr

/-- `db.query(TicketRaw).filter(TicketRaw.job_id == job_id).first()`. -/
def findTicket (s : Store) (j : ℕ) : Option Ticket :=
  s.tickets.find? fun t => decide (t.job_id = j)

/-- The stored debrief status of the ticket with external job id `j`. -/
def ticketStatus (s : Store) (j : ℕ) : Option TicketStatus :=
  (findTicket s j).map (·.debrief_status)

/-- `ticket.debrief_status = TicketStatus.COMPLETED` for the ticket of `j`. -/
def setTicketCompleted (ts : List Ticket) (j : ℕ) : List Ticket :=
  ts.map fun t => if t.job_id = j then { t with debrief_status := .completed } else t

/-- `ticket.debrief_status = TicketStatus.PENDING` for the ticket of `j`. -/
def setTicketPending (ts : List Ticket) (j : ℕ) : List Ticket :=
  ts.map fun t => if t.job_id = j then { t with debrief_status := .pending } else t

/-- The fields of `DebriefSubmission` (`app/models.py` lines 122–151)
relevant to the embedded engine: Pydantic validates
`invoice_summary_score` with `ge=1, le=10` before the handler runs.
The schema carries no follow-up fields. -/
structure DebriefSubmission where
  invoice_summary_score : ℤ
deriving DecidableEq, Repr

/-- Create-or-overwrite of the single debrief of `job_id`
(both submission paths): an existing row is updated in place keeping its
identity, otherwise a new row is appended. -/
def upsertDebrief (s : Store) (job_id : ℕ) (mk : ℕ → DebriefRow) :
    List DebriefRow × ℕ :=
  if s.debriefs.any fun d => decide (d.job_id = job_id) then
    (s.debriefs.map fun d => if d.job_id = job_id then mk d.id else d, s.nextDebriefId)
  else
    (s.debriefs ++ [mk s.nextDebriefId], s.nextDebriefId + 1)

/-- `submit_debrief` (`app/main.py` lines 618–663): Pydantic rejects an
out-of-range invoice sub-score before the handler body runs (no write);
otherwise the ticket must exist, the debrief is created or overwritten and
the ticket is marked completed in one transaction.  A freshly created row
has `followup_required = False` (the JSON schema has no follow-up fields);
an overwrite leaves the stored follow-up fields untouched. -/
def submit_debrief (s : Store) (job_id dispatcher_id : ℕ) (sub : DebriefSubmission)
    (today : ℕ) : Store × Except PyError Unit :=
  if ¬ (1 ≤ sub.invoice_summary_score ∧ sub.invoice_summary_score ≤ 10) then
    (s, .error .validationError)
  else
    match findTicket s job_id with
    | none => (s, .error .notFound)
    | some _ =>
      let prev := s.debriefs.find? fun d => decide (d.job_id = job_id)
      let mk : ℕ → DebriefRow := fun i =>
        { id := i, job_id := job_id, dispatcher_id := dispatcher_id,
          completed_date := today,
          followup_required := match prev with
            | some d => d.followup_required
            | none => false,
          followup_type := match prev with
            | some d => d.followup_type
            | none => none,
          invoice_summary_score := some sub.invoice_summary_score }
      let ds := upsertDebrief s job_id mk
      ({ s with
          debriefs := ds.1,
          nextDebriefId := ds.2,
          tickets := setTicketCompleted s.tickets job_id },
       .ok ())

/-- Accumulate a decimal numeral; any non-digit character fails. -/
def parseDigits (cs : List Char) : Option ℕ :=
  cs.foldl
    (fun acc c =>
      match acc with
      | none => none
      | some n => if c.isDigit then some (n * 10 + (c.toNat - 48)) else none)
    (some 0)

/-- `int(x)` on a string: `ValueError` (`none`) unless the string is a
decimal integer literal with an optional minus sign. -/
def pyParseInt (str : String) : Option ℤ :=
  match str.data with
  | [] => none
  | Char.ofNat 45 :: cs => if cs = [] then none else (parseDigits cs).map fun n => -(n : ℤ)
  | cs => (parseDigits cs).map fun n => (n : ℤ)

/-- The names assigned in the body of `submit_debrief_form` together with
its parameters (`app/main.py` lines 666–823). -/
def submitDebriefFormLocalNames : List String :=
  ["job_id", "request", "db", "current_user", "form_data", "ticket",
   "dispatcher_id", "followup_required", "session", "existing", "key", "value",
   "base_url", "debrief_url", "slack_result", "FOLLOWUP_TO_TASK_TYPE",
   "followup_type", "task_type_id", "task_title", "task_description",
   "st_client", "task_result"]

/-- The module-level names of `app/main.py` visible to its handlers
(imports, module constants and the handler functions themselves); no
Python builtin is named `dispatcher` either. -/
def mainModuleNames : List String :=
  ["os", "datetime", "timedelta", "List", "Optional", "FastAPI", "Request",
   "HTTPException", "Depends", "Form", "HTMLResponse", "JSONResponse",
   "RedirectResponse", "StaticFiles", "Jinja2Templates", "SessionMiddleware",
   "Session", "func", "and_", "load_dotenv", "ZoneInfo", "BASE_DIR",
   "SECRET_KEY", "app", "templates", "oauth", "get_db", "init_db",
   "TicketRaw", "Dispatcher", "DebriefSession", "SpotCheck", "WebhookLog",
   "CheckStatus", "TicketStatus", "DispatcherRole", "SpotCheckStatus",
   "BusinessUnit", "DispatcherBusinessUnit", "TicketSummary", "TicketDetail",
   "DebriefSubmission", "DebriefResponse", "DispatcherCreate",
   "DispatcherResponse", "DashboardResponse", "DailyStats", "DispatcherStats",
   "verify_webhook_signature", "process_webhook", "manual_add_job",
   "require_auth", "require_roles", "get_current_user_optional", "is_admin",
   "create_session", "clear_session", "handle_google_callback", "to_central",
   "submit_debrief", "submit_debrief_form", "reset_job_status",
   "submit_spot_check", "get_debrief_history", "get_technician_stats",
   "get_dashboard", "get_queue", "get_job"]

/-- Python name resolution at the point of the Slack call inside
`submit_debrief_form`: a name bound neither in the function body nor at
module level raises `NameError`. -/
def resolveName (n : String) : Except PyError Unit :=
  if n ∈ submitDebriefFormLocalNames ∨ n ∈ mainModuleNames then .ok ()
  else .error (.nameError n)

/-- `submit_debrief_form` (`app/main.py` lines 666–823).  The transactional
phase parses the form, creates or overwrites the debrief and marks the
ticket completed, then commits.  After the commit, when the submission
flags a required follow-up with a type, the handler builds the Slack
notification arguments, which evaluates `dispatcher.name`
(`app/main.py` line 765) — the name `dispatcher` is unbound there, so the
request errors after the commit and neither collaborator is reached. -/
def submit_debrief_form (s : Store) (job_id dispatcher_id : ℕ) (form : FormData)
    (today : ℕ) : Store × Except PyError Unit :=
  match findTicket s job_id with
  | none => (s, .error .notFound)
  | some _ =>
    let followup_required := decide (form "followup_required" = some "true")
    match (match form "invoice_summary_score" with
           | none => some (5 : ℤ)
           | some str => pyParseInt str) with
    | none => (s, .error .valueError)
    | some score =>
      let mk : ℕ → DebriefRow := fun i =>
        { id := i, job_id := job_id, dispatcher_id := dispatcher_id,
          completed_date := today, followup_required := followup_required,
          followup_type := if followup_required then form "followup_type" else none,
          invoice_summary_score := some score }
      let ds := upsertDebrief s job_id mk
      let s1 : Store :=
        { s with
            debriefs := ds.1,
            nextDebriefId := ds.2,
            tickets := setTicketCompleted s.tickets job_id }
      let result : Except PyError Unit :=
        if followup_required ∧ formTruthy form "followup_type" = true then
          match resolveName "dispatcher" with
          | .error e => .error e
          | .ok _ => .ok ()
        else .ok ()
      (s1, result)

/-- Ingestion guard of `process_webhook` / `manual_add_job`
(`app/webhook.py` lines 99–160, 195–255): re-ingesting a known job id is a
no-op reported as already existing; a new id gets a `PENDING` ticket. -/
def ingest_job (s : Store) (j : ℕ) : Store × Bool :=
  if s.tickets.any fun t => decide (t.job_id = j) then (s, false)
  else ({ s with tickets := s.tickets ++ [{ job_id := j, debrief_status := .pending }] },
    true)

/-- `reset_job_status` (`app/main.py` lines 1369–1395): `404` for an
unknown job; refused (success `false`, store untouched) when the job has a
debrief; otherwise the ticket goes back to `PENDING`. -/
def reset_job_status (s : Store) (j : ℕ) : Store × Except PyError Bool :=
  match findTicket s j with
  | none => (s, .error .notFound)
  | some _ =>
    if s.debriefs.any fun d => decide (d.job_id = j) then (s, .ok false)
    else ({ s with tickets := setTicketPending s.tickets j }, .ok true)

/-- `create_manual_spot_check` (`app/spot_check.py` lines 138–192). -/
def create_manual_spot_check (s : Store) (did today : ℕ) :
    Store × (Bool × Option ℕ) :=
  if ¬ (s.debriefs.any fun d => decide (d.id = did)) then (s, (false, none))
  else
    match s.spotChecks.find? fun sc => decide (sc.debrief_session_id = did) with
    | some existing => (s, (false, some existing.id))
    | none =>
      ({ s with
          spotChecks := s.spotChecks ++ [newSpotCheckRow s.nextSpotCheckId did "manual" today],
          nextSpotCheckId := s.nextSpotCheckId + 1 },
       (true, some s.nextSpotCheckId))

/-- The spot-check review endpoint applied to the store: the row is updated
in place by `submit_spot_check`. -/
def submit_spot_check_op (s : Store) (sid : ℕ) (form : FormData) :
    Store × Except PyError Unit :=
  if s.spotChecks.any fun sc => decide (sc.id = sid) then
    ({ s with spotChecks := s.spotChecks.map fun sc =>
        if sc.id = sid then submit_spot_check form sc else sc }, .ok ())
  else (s, .error .notFound)

/-- The operations of the engine that touch the store. -/
inductive Op where
  | ingest (job_id : ℕ)
  | submitJson (job_id dispatcher_id : ℕ) (sub : DebriefSubmission) (today : ℕ)
  | submitForm (job_id dispatcher_id : ℕ) (form : FormData) (today : ℕ)
  | resetStatus (job_id : ℕ)
  | selectDaily (date : ℕ) (pct : ℚ)
  | manualSpot (debrief_id today : ℕ)
  | submitSpot (spot_id : ℕ) (form : FormData)

/-- One engine operation applied to the store. -/
def step (sample : List DebriefRow → ℕ → List DebriefRow) (s : Store) : Op → Store
  | .ingest j => (ingest_job s j).1
  | .submitJson j d sub today => (submit_debrief s j d sub today).1
  | .submitForm j d form today => (submit_debrief_form s j d form today).1
  | .resetStatus j => (reset_job_status s j).1
  | .selectDaily date pct => (select_daily_spot_checks sample s date pct).1
  | .manualSpot did today => (create_manual_spot_check s did today).1
  | .submitSpot sid form => (submit_spot_check_op s sid form).1

end DebriefQA

namespace DebriefQA

/-- A store holding one `PENDING` ticket for job 1 and no other records. -/
def ticketOnlyStore : Store :=
  { tickets := [{ job_id := 1, debrief_status := .pending }], debriefs := [],
    spotChecks := [], nextDebriefId := 1, nextSpotCheckId := 1 }

/-- A checklist form flagging a required follow-up of type `billing`. -/
def flaggedForm : FormData := fun k =>
  if k = "followup_required" then some "true"
  else if k = "followup_type" then some "billing" else none

/-- **C4**: for a debrief submission that flags a required follow-up, the
handler commits the debrief and the `COMPLETED` ticket status first, but the
post-commit notification phase evaluates `dispatcher.name` with the name
`dispatcher` unbound, so the request fails with a `NameError` instead of
succeeding with a soft warning — while the committed debrief and ticket
state indeed survive the failure. -/
theorem submit_form_followup_name_error :
    (submit_debrief_form ticketOnlyStore 1 7 flaggedForm 0).2 =
      .error (.nameError "dispatcher") ∧
    (submit_debrief_form ticketOnlyStore 1 7 flaggedForm 0).1.debriefs.length = 1 ∧
    ticketStatus (submit_debrief_form ticketOnlyStore 1 7 flaggedForm 0).1 1 =
      some .completed := by
  refine ⟨rfl, by decide, rfl⟩

/-- A checklist form carrying the out-of-range invoice sub-score 11. -/
def score11Form : FormData := fun k =>
  if k = "invoice_summary_score" then some "11" else none

/-- **C5 counterexample**: the HTML-form submission path accepts the
out-of-range invoice sub-score 11 — the request succeeds, the debrief is
persisted with score 11 and the ticket is marked completed, with no
`ValidationError`. -/
theorem form_path_accepts_out_of_range_score :
    (submit_debrief_form ticketOnlyStore 1 7 score11Form 0).2 = .ok () ∧
    ((submit_debrief_form ticketOnlyStore 1 7 score11Form 0).1.debriefs.map
      (·.invoice_summary_score)) = [some 11] ∧
    ticketStatus (submit_debrief_form ticketOnlyStore 1 7 score11Form 0).1 1 =
      some .completed := by
  refine ⟨rfl, rfl, rfl⟩

/-- **C5 amended**: the JSON submission path (`submit_debrief` through the
`DebriefSubmission` schema) rejects an invoice sub-score outside `[1,10]`
with a `ValidationError` and leaves the store untouched, and succeeds for
every integer score in `[1,10]` on an existing ticket; the HTML form path
performs no such range validation. -/
theorem submit_debrief_json_validation (s : Store) (j d today : ℕ)
    (sub : DebriefSubmission) :
    ((sub.invoice_summary_score < 1 ∨ 10 < sub.invoice_summary_score) →
      submit_debrief s j d sub today = (s, .error .validationError)) ∧
    ((1 ≤ sub.invoice_summary_score ∧ sub.invoice_summary_score ≤ 10) →
      (findTicket s j).isSome → (submit_debrief s j d sub today).2 = .ok ()) := by
  constructor
  · intro h
    have hno : ¬ (1 ≤ sub.invoice_summary_score ∧ sub.invoice_summary_score ≤ 10) := by
      omega
    simp [submit_debrief, hno]
  · intro h hsome
    obtain ⟨t, ht⟩ := Option.isSome_iff_exists.mp hsome
    simp [submit_debrief, h, ht]

theorem submit_debrief_json_validation_witness :
    (submit_debrief ticketOnlyStore 1 7 { invoice_summary_score := 11 } 0 =
      (ticketOnlyStore, .error .validationError)) ∧
    (submit_debrief ticketOnlyStore 1 7 { invoice_summary_score := 5 } 0).2 = .ok () :=
  ⟨(submit_debrief_json_validation ticketOnlyStore 1 7 0
      { invoice_summary_score := 11 }).1 (by decide),
   (submit_debrief_json_validation ticketOnlyStore 1 7 0
      { invoice_summary_score := 5 }).2 (by decide) (by decide)⟩

end DebriefQA

namespace DebriefQA

theorem find?_jobId_map (ts : List Ticket) (j : ℕ) (f : Ticket → Ticket)
    (hf : ∀ t, (f t).job_id = t.job_id) :
    (ts.map f).find? (fun t => decide (t.job_id = j)) =
      (ts.find? fun t => decide (t.job_id = j)).map f := by
  induction ts with
  | nil => rfl
  | cons hd tl ih =>
    by_cases h : hd.job_id = j
    · rw [List.map_cons, List.find?_cons_of_pos _ (by simp [hf, h]),
        List.find?_cons_of_pos _ (by simp [h])]
      rfl
    · rw [List.map_cons, List.find?_cons_of_neg _ (by simp [hf, h]),
        List.find?_cons_of_neg _ (by simp [h])]
      exact ih

theorem ticketStatus_setCompleted (s : Store) (j j2 : ℕ) (rest : Store)
    (hrest : rest.tickets = setTicketCompleted s.tickets j2) :
    ticketStatus rest j = (findTicket s j).map
      (fun t => if t.job_id = j2 then TicketStatus.completed else t.debrief_status) := by
  simp only [ticketStatus, findTicket, hrest, setTicketCompleted]
  rw [find?_jobId_map _ j _ (fun t => by by_cases h : t.job_id = j2 <;> simp [h])]
  cases hft : s.tickets.find? fun t => decide (t.job_id = j) with
  | none => rfl
  | some t =>
    by_cases h : t.job_id = j2 <;> simp [h]

theorem ticketStatus_setPending (s : Store) (j j2 : ℕ) (rest : Store)
    (hrest : rest.tickets = setTicketPending s.tickets j2) :
    ticketStatus rest j = (findTicket s j).map
      (fun t => if t.job_id = j2 then TicketStatus.pending else t.debrief_status) := by
  simp only [ticketStatus, findTicket, hrest, setTicketPending]
  rw [find?_jobId_map _ j _ (fun t => by by_cases h : t.job_id = j2 <;> simp [h])]
  cases hft : s.tickets.find? fun t => decide (t.job_id = j) with
  | none => rfl
  | some t =>
    by_cases h : t.job_id = j2 <;> simp [h]

theorem ticketStatus_congr (s s2 : Store) (j : ℕ) (h : s2.tickets = s.tickets) :
    ticketStatus s2 j = ticketStatus s j := by
  simp [ticketStatus, findTicket, h]

theorem select_tickets_eq (sample : List DebriefRow → ℕ → List DebriefRow)
    (s : Store) (date : ℕ) (pct : ℚ) :
    (select_daily_spot_checks sample s date pct).1.tickets = s.tickets := by
  by_cases hne : dayDebriefs s date = [] <;> simp [select_daily_spot_checks, hne]

theorem manualSpot_tickets_eq (s : Store) (did today : ℕ) :
    (create_manual_spot_check s did today).1.tickets = s.tickets := by
  simp only [create_manual_spot_check]
  by_cases h1 : ¬ (s.debriefs.any fun d => decide (d.id = did))
  · simp [h1]
  · simp only [if_neg h1]
    cases hf : s.spotChecks.find? fun sc => decide (sc.debrief_session_id = did) <;> simp

theorem submitSpotOp_tickets_eq (s : Store) (sid : ℕ) (form : FormData) :
    (submit_spot_check_op s sid form).1.tickets = s.tickets := by
  by_cases h : s.spotChecks.any fun sc => decide (sc.id = sid) <;>
    simp [submit_spot_check_op, h]

theorem submitJson_tickets (s : Store) (j d : ℕ) (sub : DebriefSubmission) (today : ℕ) :
    (submit_debrief s j d sub today).1.tickets = s.tickets ∨
    (submit_debrief s j d sub today).1.tickets = setTicketCompleted s.tickets j := by
  simp only [submit_debrief]
  by_cases hv : ¬ (1 ≤ sub.invoice_summary_score ∧ sub.invoice_summary_score ≤ 10)
  · simp [hv]
  · simp only [if_neg (not_not_intro (not_not.mp hv))]
    cases hft : findTicket s j with
    | none => simp [hv]
    | some t => simp [hv]

theorem submitForm_tickets (s : Store) (j d : ℕ) (form : FormData) (today : ℕ) :
    (submit_debrief_form s j d form today).1.tickets = s.tickets ∨
    (submit_debrief_form s j d form today).1.tickets = setTicketCompleted s.tickets j := by
  unfold submit_debrief_form
  repeat' split
  all_goals first
    | (left; rfl)
    | (right; rfl)

end DebriefQA

namespace DebriefQA

theorem status_completed_elim (s : Store) (j : ℕ)
    (hc : ticketStatus s j = some .completed) :
    ∃ t, findTicket s j = some t ∧ t.debrief_status = .completed ∧ t.job_id = j := by
  simp only [ticketStatus] at hc
  cases hft : findTicket s j with
  | none => rw [hft] at hc; simp at hc
  | some t =>
    rw [hft] at hc
    refine ⟨t, rfl, by simpa using hc, ?_⟩
    have := List.find?_some hft
    simpa using this

theorem ingest_tickets (s : Store) (j2 : ℕ) :
    (ingest_job s j2).1.tickets = s.tickets ∨
    (ingest_job s j2).1.tickets =
      s.tickets ++ [{ job_id := j2, debrief_status := .pending }] := by
  unfold ingest_job
  by_cases hex : (s.tickets.any fun t => decide (t.job_id = j2)) = true
  · left; simp [hex]
  · right; simp [hex]

theorem reset_tickets (s : Store) (j2 : ℕ) :
    (reset_job_status s j2).1.tickets = s.tickets ∨
    ((reset_job_status s j2).1.tickets = setTicketPending s.tickets j2 ∧
      (s.debriefs.any fun d => decide (d.job_id = j2)) = false) := by
  unfold reset_job_status
  cases hft : findTicket s j2 with
  | none => left; rfl
  | some t =>
    by_cases hany : (s.debriefs.any fun d => decide (d.job_id = j2)) = true
    · left; simp [hany]
    · right
      refine ⟨by simp [hany], by simpa using hany⟩

/-- **C10**: a ticket moves from `COMPLETED` back to `PENDING` only through
the explicit reset operation applied to that very job, and the reset is
taken only when the job holds no debrief; conversely, for every ticket that
has a debrief, the reset leaves the store unchanged and reports failure. -/
theorem completed_to_pending_only_via_guarded_reset
    (sample : List DebriefRow → ℕ → List DebriefRow) (s : Store) (op : Op) (j : ℕ) :
    (ticketStatus s j = some .completed →
      ticketStatus (step sample s op) j = some .pending →
      op = .resetStatus j ∧ ∀ d ∈ s.debriefs, d.job_id ≠ j) ∧
    ((∃ d ∈ s.debriefs, d.job_id = j) → (findTicket s j).isSome →
      reset_job_status s j = (s, .ok false)) := by
  constructor
  · intro hc hp
    obtain ⟨t, hft, hts, htj⟩ := status_completed_elim s j hc
    cases op with
    | ingest j2 =>
      rcases ingest_tickets s j2 with h | h
      · rw [show step sample s (.ingest j2) = (ingest_job s j2).1 from rfl,
          ticketStatus_congr s _ j h, hc] at hp
        simp at hp
      · rw [show step sample s (.ingest j2) = (ingest_job s j2).1 from rfl] at hp
        simp only [ticketStatus, findTicket, h, List.find?_append] at hp
        simp only [ticketStatus, findTicket] at hft
        rw [hft] at hp
        simp [hts] at hp
    | submitJson j2 d sub today =>
      rcases submitJson_tickets s j2 d sub today with h | h
      · rw [show step sample s (.submitJson j2 d sub today) =
            (submit_debrief s j2 d sub today).1 from rfl,
          ticketStatus_congr s _ j h, hc] at hp
        simp at hp
      · rw [show step sample s (.submitJson j2 d sub today) =
            (submit_debrief s j2 d sub today).1 from rfl,
          ticketStatus_setCompleted s j j2 _ h, hft] at hp
        by_cases htj2 : t.job_id = j2 <;> simp [htj2, hts] at hp
    | submitForm j2 d form today =>
      rcases submitForm_tickets s j2 d form today with h | h
      · rw [show step sample s (.submitForm j2 d form today) =
            (submit_debrief_form s j2 d form today).1 from rfl,
          ticketStatus_congr s _ j h, hc] at hp
        simp at hp
      · rw [show step sample s (.submitForm j2 d form today) =
            (submit_debrief_form s j2 d form today).1 from rfl,
          ticketStatus_setCompleted s j j2 _ h, hft] at hp
        by_cases htj2 : t.job_id = j2 <;> simp [htj2, hts] at hp
    | resetStatus j2 =>
      rcases reset_tickets s j2 with h | ⟨h, hany⟩
      · rw [show step sample s (.resetStatus j2) = (reset_job_status s j2).1 from rfl,
          ticketStatus_congr s _ j h, hc] at hp
        simp at hp
      · rw [show step sample s (.resetStatus j2) = (reset_job_status s j2).1 from rfl,
          ticketStatus_setPending s j j2 _ h, hft] at hp
        by_cases htj2 : t.job_id = j2
        · have hj2 : j2 = j := by rw [← htj2, htj]
          subst hj2
          refine ⟨rfl, ?_⟩
          intro d0 hd0 hdj
          have : (s.debriefs.any fun d => decide (d.job_id = j2)) = true :=
            List.any_eq_true.mpr ⟨d0, hd0, by simp [hdj]⟩
          rw [this] at hany
          exact Bool.noConfusion hany
        · simp [htj2, hts] at hp
    | selectDaily date pct =>
      rw [show step sample s (.selectDaily date pct) =
          (select_daily_spot_checks sample s date pct).1 from rfl,
        ticketStatus_congr s _ j (select_tickets_eq sample s date pct), hc] at hp
      simp at hp
    | manualSpot did today =>
      rw [show step sample s (.manualSpot did today) =
          (create_manual_spot_check s did today).1 from rfl,
        ticketStatus_congr s _ j (manualSpot_tickets_eq s did today), hc] at hp
      simp at hp
    | submitSpot sid form =>
      rw [show step sample s (.submitSpot sid form) =
          (submit_spot_check_op s sid form).1 from rfl,
        ticketStatus_congr s _ j (submitSpotOp_tickets_eq s sid form), hc] at hp
      simp at hp
  · intro hex hsome
    obtain ⟨d0, hd0, hdj⟩ := hex
    obtain ⟨t, ht⟩ := Option.isSome_iff_exists.mp hsome
    have hany : (s.debriefs.any fun d => decide (d.job_id = j)) = true :=
      List.any_eq_true.mpr ⟨d0, hd0, by simp [hdj]⟩
    unfold reset_job_status
    rw [ht]
    simp [hany]

end DebriefQA

namespace DebriefQA

/-- A completed ticket for job 1 together with its debrief. -/
def completedStore : Store :=
  { tickets := [{ job_id := 1, debrief_status := .completed }],
    debriefs := [{ id := 1, job_id := 1, dispatcher_id := 7, completed_date := 0,
                   followup_required := false, followup_type := none,
                   invoice_summary_score := some 5 }],
    spotChecks := [], nextDebriefId := 2, nextSpotCheckId := 1 }

/-- A completed ticket for job 2 with no debrief. -/
def completedNoDebriefStore : Store :=
  { tickets := [{ job_id := 2, debrief_status := .completed }], debriefs := [],
    spotChecks := [], nextDebriefId := 1, nextSpotCheckId := 1 }

theorem completed_to_pending_only_via_guarded_reset_witness :
    (Op.resetStatus 2 = Op.resetStatus 2 ∧
      ∀ d ∈ completedNoDebriefStore.debriefs, d.job_id ≠ 2) ∧
    reset_job_status completedStore 1 = (completedStore, .ok false) :=
  ⟨(completed_to_pending_only_via_guarded_reset sampleTake completedNoDebriefStore
      (.resetStatus 2) 2).1 (by decide) (by decide),
   (completed_to_pending_only_via_guarded_reset sampleTake completedStore
      (.resetStatus 1) 1).2 (by decide) (by decide)⟩

end DebriefQA
